import Mathlib

/-!
Shallow embedding of the SecondThought decision-lifecycle code
(`src/types.ts`, `src/services/storage.ts`, `src/App.tsx`).

Timestamps are integers (milliseconds, as produced by `Date.now()`);
each `Date.now()` call in the source is modelled as an explicit integer
argument, one argument per call site, in source order.  The single-key
`localStorage` blob store (key `secondthought_active_decision`) is
modelled as an `Option Decision`; the JSON round trip performed by
`saveDecision`/`getDecision` is the identity on the record.
-/

namespace SecondThought

/-- Decision categories, from `src/types.ts` (`enum DecisionType`). -/
inductive DecisionType
  | SHOPPING
  | MESSAGE
  | WORK
  | FEELING
  | OTHER
deriving DecidableEq, Repr

/-- Lifecycle statuses, from `src/types.ts` (`enum DecisionStatus`). -/
inductive DecisionStatus
  | DRAFT
  | WAITING
  | COMPLETED
  | CANCELLED
  | SNOOZED
deriving DecidableEq, Repr

/-- The persisted record, from `src/types.ts` (`interface Decision`).
Optional fields (`reflectionText?`, `finalNote?`) become `Option String`. -/
structure Decision where
  id : String
  type : DecisionType
  text : String
  reflectionText : Option String := none
  startTime : Int
  durationMinutes : Int
  endTime : Int
  status : DecisionStatus
  createdAt : Int
  finalNote : Option String := none
deriving DecidableEq, Repr

/-- The `saveDecision` function of `src/services/storage.ts`:
`localStorage.setItem(STORAGE_KEY, JSON.stringify(decision))` overwrites
the single stored record. -/
def saveDecision (decision : Decision) (_store : Option Decision) : Option Decision :=
  some decision

/-- The `getDecision` function of `src/services/storage.ts`: reads the single
key and parses it, `null` (here `none`) when the key is absent. -/
def getDecision (store : Option Decision) : Option Decision :=
  store

/-- The `clearDecision` function of `src/services/storage.ts`:
`localStorage.removeItem(STORAGE_KEY)`. -/
def clearDecision (_store : Option Decision) : Option Decision :=
  none

/-- The `createDraftDecision` function of `src/services/storage.ts`;
`crypto.randomUUID()` and `Date.now()` are passed in explicitly. -/
def createDraftDecision (uuid : String) (now : Int) : Decision :=
  { id := uuid
    type := DecisionType.OTHER
    text := ""
    startTime := 0
    durationMinutes := 0
    endTime := 0
    status := DecisionStatus.DRAFT
    createdAt := now }

/-- The `handleNext` handler of `DecisionInputScreen` in `src/App.tsx`:
`if (!text.trim()) return;` then store the text in the draft and navigate
to the delay screen.  `some` is the updated draft (navigation happens);
`none` means the handler returned early with no state change at all. -/
def handleNext (draft : Decision) (text : String) : Option Decision :=
  if text.trim = "" then none else some { draft with text := text }

/-- The validation bound `MAX_MINUTES = 7 * 24 * 60` of `CustomDurationPicker`
in `src/App.tsx`. -/
def MAX_MINUTES : Int := 7 * 24 * 60

/-- The unit selector of `CustomDurationPicker` in `src/App.tsx`. -/
inductive DurationUnit
  | minutes
  | hours
  | days
deriving DecidableEq, Repr

/-- The `calculateMinutes` function of `CustomDurationPicker` in `src/App.tsx`. -/
def calculateMinutes (value : Int) : DurationUnit → Int
  | DurationUnit.minutes => value
  | DurationUnit.hours => value * 60
  | DurationUnit.days => value * 24 * 60

/-- The validation message computed by the effect of `CustomDurationPicker`
in `src/App.tsx` (`setError`): too long, too short, or no error. -/
def durationError (totalMinutes : Int) : Option String :=
  if totalMinutes > MAX_MINUTES then some "Maksimal durasi adalah 1 minggu (7 hari)."
  else if totalMinutes < 1 then some "Durasi minimal 1 menit."
  else none

/-- The `handleConfirm` handler of `CustomDurationPicker` in `src/App.tsx`:
`onSelect(totalMinutes)` fires only when no error is set; `none` means the
confirmation is blocked and no duration is delivered. -/
def handleConfirm (totalMinutes : Int) : Option Int :=
  if durationError totalMinutes = none then some totalMinutes else none

/-- The `handleStart` handler of `ReflectionScreen` in `src/App.tsx`.
`t1` and `t2` are the values returned by its two successive `Date.now()`
calls: the first is assigned to `startTime`, the second is the base of
`endTime`. -/
def handleStart (draft : Decision) (reflection : String) (t1 t2 : Int) : Decision :=
  { draft with
      reflectionText := some reflection
      status := DecisionStatus.WAITING
      startTime := t1
      endTime := t2 + draft.durationMinutes * 60 * 1000 }

/-- Outcome of one `setInterval` callback of `WaitingScreen` in `src/App.tsx`:
either the expired branch (`diff <= 0`) is taken, or the countdown keeps
running with the displayed hours, minutes, seconds and the progress
percentage.  The expired branch does not compute or update any progress
value. -/
inductive TickResult
  | expired
  | running (hours minutes seconds : Int) (progress : ℚ)
deriving DecidableEq, Repr

/-- The body of the `setInterval` callback of `WaitingScreen` in
`src/App.tsx`: `diff = endTime - now`, `totalDuration = endTime - startTime`;
when `diff <= 0` the expired branch runs (notification, alarm, `onComplete`),
otherwise the displayed time and `progress = 100 - (diff / totalDuration) * 100`
are recomputed.  The quotient is taken in `ℚ`, the floors in `Int`
(`diff` is positive in that branch, so integer division is `Math.floor`). -/
def tick (d : Decision) (now : Int) : TickResult :=
  let diff := d.endTime - now
  let totalDuration := d.endTime - d.startTime
  if diff ≤ 0 then TickResult.expired
  else
    TickResult.running (diff / (1000 * 60 * 60)) ((diff % (1000 * 60 * 60)) / (1000 * 60))
      ((diff % (1000 * 60)) / 1000)
      (100 - ((diff : ℚ) / (totalDuration : ℚ)) * 100)

/-- The `notified` one-shot flag of `WaitingScreen` in `src/App.tsx`,
together with a count of Notifier firings (browser notification plus
looping alarm) used to reason about how often the Notifier is triggered. -/
structure WaitState where
  notified : Bool
  notifications : Nat
deriving DecidableEq, Repr

/-- Notification effect of one tick of `WaitingScreen` in `src/App.tsx`:
on an expired tick (`diff <= 0`) with the one-shot flag still unset, the
flag is set and the Notifier fires once; every other tick leaves the
state untouched. -/
def tickNotify (d : Decision) (w : WaitState) (now : Int) : WaitState :=
  if d.endTime - now ≤ 0 then
    if w.notified then w
    else { notified := true, notifications := w.notifications + 1 }
  else w

/-- Fold of `tickNotify` over a sequence of observed tick times — the
ticks delivered during one mounted `WaitingScreen` cycle. -/
def runTicks (d : Decision) (w : WaitState) (times : List Int) : WaitState :=
  times.foldl (tickNotify d) w

/-- In-memory state of the `App` component of `src/App.tsx` plus the
persistent store. -/
structure AppState where
  activeDecision : Option Decision
  draftDecision : Decision
  store : Option Decision
deriving DecidableEq, Repr

/-- App initialisation in `src/App.tsx`: a fresh draft from
`createDraftDecision`, then the mount effect loads the stored record (if
any) into `activeDecision`. -/
def initApp (store : Option Decision) (uuid : String) (now : Int) : AppState :=
  { activeDecision := getDecision store
    draftDecision := createDraftDecision uuid now
    store := store }

/-- The `startWaiting` callback of `App` in `src/App.tsx`: persist the
committed decision and make it the active one. -/
def startWaiting (s : AppState) (decision : Decision) : AppState :=
  { s with store := saveDecision decision s.store, activeDecision := some decision }

/-- The `handleFinish` callback of `App` in `src/App.tsx`: it logs the
chosen status and note, clears the store, drops the active decision and
resets the draft (`Date.now()` and the fresh UUID passed explicitly). -/
def handleFinish (s : AppState) (_status : DecisionStatus) (_note : Option String)
    (uuid : String) (now : Int) : AppState :=
  { s with
      store := clearDecision s.store
      activeDecision := none
      draftDecision := createDraftDecision uuid now }

/-- The `handleEmergency` callback of `App` in `src/App.tsx`: when an
active decision exists, replace its `endTime` by `Date.now()` (passed as
`now`), persist and keep the updated record active; otherwise do nothing. -/
def handleEmergency (s : AppState) (now : Int) : AppState :=
  match s.activeDecision with
  | some d =>
      let updated : Decision := { d with endTime := now }
      { s with store := saveDecision updated s.store, activeDecision := some updated }
  | none => s

/-- Targets of the root route of `AnimatedRoutes` in `src/App.tsx`. -/
inductive Route
  | landing
  | waiting
  | result
deriving DecidableEq, Repr

/-- The element rendered by the root route of `AnimatedRoutes` in
`src/App.tsx`: an active WAITING decision redirects to the result screen
when `Date.now() >= endTime` and to the waiting screen otherwise; in every
other case the landing screen renders. -/
def rootRoute (activeDecision : Option Decision) (now : Int) : Route :=
  match activeDecision with
  | some d =>
      if d.status = DecisionStatus.WAITING then
        if now ≥ d.endTime then Route.result else Route.waiting
      else Route.landing
  | none => Route.landing

/-- Whether a tick outcome reports a zero progress fraction, that is, a
running countdown with `progress = 0`.  The expired outcome reports no
fraction at all (the flow then treats the countdown as complete). -/
def returnsFractionZero : TickResult → Bool
  | TickResult.running _ _ _ p => decide (p = 0)
  | TickResult.expired => false

/-- Trimming the empty string yields the empty string (evaluation fact
about `String.trim`, needed because its auxiliaries use well-founded
recursion and do not reduce by `decide`). -/
theorem trim_empty : "".trim = "" := by
  have h1 : Substring.takeWhileAux "" 0 Char.isWhitespace 0 = 0 := by
    unfold Substring.takeWhileAux
    simp
  have h2 : Substring.takeRightWhileAux "" 0 Char.isWhitespace 0 = 0 := by
    unfold Substring.takeRightWhileAux
    simp
  simp [String.trim, Substring.trim, Substring.trimRight, Substring.trimLeft,
    String.toSubstring, Substring.toString, String.extract, h1, h2]

/-- Once the one-shot flag is set, a tick changes nothing. -/
theorem tickNotify_notified (d : Decision) (w : WaitState) (t : Int)
    (h : w.notified = true) : tickNotify d w t = w := by
  unfold tickNotify
  split
  · simp [h]
  · rfl

/-- Once the one-shot flag is set, a whole tick sequence changes nothing. -/
theorem runTicks_notified (d : Decision) (w : WaitState) (times : List Int)
    (h : w.notified = true) : runTicks d w times = w := by
  induction times with
  | nil => rfl
  | cons t ts ih =>
      show runTicks d (tickNotify d w t) ts = w
      rw [tickNotify_notified d w t h]
      exact ih

/-- Starting with the flag unset, a tick sequence fires the Notifier once
when some tick is at or after expiry and never otherwise. -/
theorem runTicks_count (d : Decision) (times : List Int) (n : Nat) :
    (runTicks d { notified := false, notifications := n } times).notifications
      = n + (if times.any (fun t => decide (d.endTime - t ≤ 0)) then 1 else 0) := by
  induction times generalizing n with
  | nil => simp [runTicks]
  | cons t ts ih =>
      show (runTicks d (tickNotify d { notified := false, notifications := n } t)
        ts).notifications = _
      by_cases hexp : d.endTime - t ≤ 0
      · have h1 : tickNotify d { notified := false, notifications := n } t
            = { notified := true, notifications := n + 1 } := by
          simp [tickNotify, hexp]
        rw [h1, runTicks_notified d _ ts rfl]
        simp [List.any_cons, show d.endTime ≤ t from by omega]
      · have h1 : tickNotify d { notified := false, notifications := n } t
            = { notified := false, notifications := n } := by
          simp [tickNotify, hexp]
        rw [h1, ih]
        simp [List.any_cons, show ¬d.endTime ≤ t from by omega]

/-- C1 counterexample: committing the scenario draft ("sneakers", 5 minutes)
with the two `Date.now()` readings of `handleStart` one millisecond apart
(first reading 0, second reading 1) yields a WAITING decision with
`endTime - startTime = 300001`, not `durationMinutes * 60000 = 300000`,
even though the text is non-empty and the duration lies in bounds. -/
theorem c1_counterexample :
    let draft : Decision :=
      { createDraftDecision "id-1" 0 with
          type := DecisionType.SHOPPING, text := "sneakers", durationMinutes := 5 }
    let d : Decision := handleStart draft "" 0 1
    d.text ≠ "" ∧ 1 ≤ d.durationMinutes ∧ d.durationMinutes ≤ 10080 ∧
      d.status = DecisionStatus.WAITING ∧ d.startTime = 0 ∧
      d.endTime - d.startTime ≠ d.durationMinutes * 60000 := by
  decide

/-- C1 (amended): for every commit of a draft with non-empty text and
duration between 1 and 10080 minutes, the resulting decision is WAITING,
`startTime` is the first commit-time clock reading `t1`, and
`endTime - startTime = durationMinutes * 60000 + (t2 - t1)` where `t2` is
the second clock reading used for `endTime`; the difference is exactly
`durationMinutes * 60000` precisely when the two readings coincide. -/
theorem c1_commit_duration (draft : Decision) (reflection : String) (t1 t2 : Int)
    (htext : draft.text ≠ "") (h1 : 1 ≤ draft.durationMinutes)
    (h2 : draft.durationMinutes ≤ 10080) :
    (handleStart draft reflection t1 t2).status = DecisionStatus.WAITING ∧
    (handleStart draft reflection t1 t2).startTime = t1 ∧
    (handleStart draft reflection t1 t2).endTime - (handleStart draft reflection t1 t2).startTime
      = (handleStart draft reflection t1 t2).durationMinutes * 60000 + (t2 - t1) := by
  refine ⟨rfl, rfl, ?_⟩
  show t2 + draft.durationMinutes * 60 * 1000 - t1 = draft.durationMinutes * 60000 + (t2 - t1)
  ring

/-- Witness for C1: the amended theorem applied to the scenario draft with
both clock readings equal to 7. -/
theorem c1_commit_duration_witness :
    (handleStart { createDraftDecision "id-1" 0 with
        type := DecisionType.SHOPPING, text := "sneakers", durationMinutes := 5 }
      "" 7 7).status = DecisionStatus.WAITING ∧
    (handleStart { createDraftDecision "id-1" 0 with
        type := DecisionType.SHOPPING, text := "sneakers", durationMinutes := 5 }
      "" 7 7).startTime = 7 ∧
    (handleStart { createDraftDecision "id-1" 0 with
        type := DecisionType.SHOPPING, text := "sneakers", durationMinutes := 5 }
      "" 7 7).endTime - (handleStart { createDraftDecision "id-1" 0 with
        type := DecisionType.SHOPPING, text := "sneakers", durationMinutes := 5 }
      "" 7 7).startTime
      = (handleStart { createDraftDecision "id-1" 0 with
        type := DecisionType.SHOPPING, text := "sneakers", durationMinutes := 5 }
      "" 7 7).durationMinutes * 60000 + (7 - 7) :=
  c1_commit_duration _ "" 7 7 (by decide) (by decide) (by decide)

/-- C2 counterexample: resolving the expired scenario decision with
`CANCELLED` and a note clears both the persistent store and the in-memory
active decision; afterwards no record exists at all, so no decision record
receives `finalNote` equal to the note or status `CANCELLED`, refuting the
claim as stated (the store-clearing part does hold). -/
theorem c2_counterexample :
    let d : Decision :=
      { createDraftDecision "id-2" 0 with
          type := DecisionType.SHOPPING, text := "sneakers", durationMinutes := 5,
          status := DecisionStatus.WAITING, startTime := 0, endTime := 300000 }
    let s : AppState := startWaiting (initApp none "id-2" 0) d
    let s2 : AppState := handleFinish s DecisionStatus.CANCELLED (some "no need") "id-3" 300001
    s2.store = none ∧ s2.activeDecision = none ∧ s2.draftDecision.finalNote = none := by
  decide

/-- C2 (amended): resolving to any terminal status clears the persistent
store, discards the in-memory active decision and resets the draft; the
chosen status and the note are only logged and are never written into any
record — the result does not depend on them at all. -/
theorem c2_resolve_clears (s : AppState) (status : DecisionStatus) (note : Option String)
    (uuid : String) (now : Int) :
    (handleFinish s status note uuid now).store = none ∧
    (handleFinish s status note uuid now).activeDecision = none ∧
    (handleFinish s status note uuid now).draftDecision = createDraftDecision uuid now ∧
    handleFinish s status note uuid now
      = handleFinish s DecisionStatus.COMPLETED none uuid now :=
  ⟨rfl, rfl, rfl, rfl⟩

/-- C3 counterexample: for a zero-duration decision (`startTime = endTime = 0`)
observed at `now = 0 = startTime`, the tick takes the expired branch and
reports no zero progress fraction, refuting "fractionElapsed == 0 when
now == startTime" as stated (the claim itself demands fraction 1 at this
same point via its `now >= endTime` clause). -/
theorem c3_counterexample :
    let dZ : Decision :=
      { id := "z", type := DecisionType.OTHER, text := "x", startTime := 0,
        durationMinutes := 0, endTime := 0, status := DecisionStatus.WAITING,
        createdAt := 0 }
    dZ.startTime = 0 ∧ dZ.endTime = 0 ∧ tick dZ 0 = TickResult.expired ∧
      returnsFractionZero (tick dZ 0) = false := by
  decide

/-- C3 (amended): when `now = startTime` and the total duration is positive
the tick reports progress 0 (the displayed time being the floored full
duration); whenever `now >= endTime` the tick takes the expired branch,
which computes no quotient; and in the zero-duration case
`startTime = endTime` every tick at `now >= startTime` is expired, so the
division by `endTime - startTime` is never reached and the derivation is
total. -/
theorem c3_countdown (d : Decision) (now : Int) :
    (now = d.startTime → d.startTime < d.endTime →
      tick d now = TickResult.running ((d.endTime - d.startTime) / (1000 * 60 * 60))
        (((d.endTime - d.startTime) % (1000 * 60 * 60)) / (1000 * 60))
        (((d.endTime - d.startTime) % (1000 * 60)) / 1000) 0) ∧
    (d.endTime ≤ now → tick d now = TickResult.expired) ∧
    (d.startTime = d.endTime → d.startTime ≤ now → tick d now = TickResult.expired) := by
  refine ⟨?_, ?_, ?_⟩
  · intro hnow hlt
    subst hnow
    have hne : ((d.endTime - d.startTime : Int) : ℚ) ≠ 0 := by
      exact_mod_cast sub_ne_zero.mpr (ne_of_gt hlt)
    simp only [tick]
    rw [if_neg (by omega)]
    rw [div_self hne]
    norm_num
  · intro hle
    simp only [tick]
    rw [if_pos (by omega)]
  · intro heq hle
    simp only [tick]
    rw [if_pos (by omega)]

/-- Witness for C3: the amended theorem applied to a five-minute decision
at its start time and at its end time, and to a zero-duration decision. -/
theorem c3_countdown_witness :
    let dW : Decision :=
      { id := "w", type := DecisionType.OTHER, text := "x", startTime := 0,
        durationMinutes := 5, endTime := 300000, status := DecisionStatus.WAITING,
        createdAt := 0 }
    let dZ : Decision := { dW with durationMinutes := 0, endTime := 0 }
    tick dW 0 = TickResult.running 0 5 0 0 ∧
    tick dW 300000 = TickResult.expired ∧
    tick dZ 0 = TickResult.expired := by
  intro dW dZ
  refine ⟨?_, ?_, ?_⟩
  · rw [(c3_countdown dW 0).1 rfl (by decide)]
    decide
  · exact (c3_countdown dW 300000).2.1 (by decide)
  · exact (c3_countdown dZ 0).2.2 rfl (by decide)

/-- C4: during one mounted WAITING cycle, starting with the one-shot flag
unset, a tick sequence containing at least one tick at or after `endTime`
triggers the Notifier exactly once, however many ticks occur after expiry. -/
theorem c4_notify_once (d : Decision) (times : List Int)
    (h : ∃ t ∈ times, d.endTime ≤ t) :
    (runTicks d { notified := false, notifications := 0 } times).notifications = 1 := by
  rw [runTicks_count]
  have hany : times.any (fun t => decide (d.endTime - t ≤ 0)) = true := by
    rcases h with ⟨t, ht, hle⟩
    exact List.any_eq_true.mpr ⟨t, ht, by simpa using show d.endTime - t ≤ 0 from by omega⟩
  rw [hany]
  simp

/-- Witness for C4: a decision expiring at time 5, ticked at times
5, 6, 7 and 100 — four ticks after expiry, one notification. -/
theorem c4_notify_once_witness :
    (runTicks
      { id := "w", type := DecisionType.OTHER, text := "x", startTime := 0,
        durationMinutes := 1, endTime := 5, status := DecisionStatus.WAITING,
        createdAt := 0 }
      { notified := false, notifications := 0 } [5, 6, 7, 100]).notifications = 1 :=
  c4_notify_once _ [5, 6, 7, 100] ⟨5, by decide, by decide⟩

/-- C5 counterexample: on a WAITING decision with `endTime = 100`, pressing
the emergency override at clock reading 200 (after expiry but before the
next tick navigates away) replaces `endTime` by 200 > 100 — the code
applies no clamp, so `endTime` increases, refuting monotone non-increase
as stated. -/
theorem c5_counterexample :
    let d : Decision :=
      { id := "e", type := DecisionType.OTHER, text := "x", startTime := 0,
        durationMinutes := 1, endTime := 100, status := DecisionStatus.WAITING,
        createdAt := 0 }
    let s : AppState :=
      { activeDecision := some d, draftDecision := createDraftDecision "f" 0,
        store := some d }
    (handleEmergency s 200).activeDecision = some { d with endTime := 200 } ∧
      d.endTime < ({ d with endTime := 200 } : Decision).endTime := by
  decide

/-- C5 (amended): at commit, provided the second clock reading is not
earlier than the first and the duration is nonnegative,
`endTime >= startTime` holds; the emergency override replaces `endTime` of
the active decision by the press-time reading `t` and changes nothing else,
so it does not increase `endTime` exactly when `t` is at or before the
current `endTime` (the code enforces no such clamp), and it preserves
`endTime >= startTime` whenever `t >= startTime`. -/
theorem c5_end_time (draft : Decision) (reflection : String) (t1 t2 : Int)
    (s : AppState) (d : Decision) (t : Int)
    (hc : t1 ≤ t2) (hdur : 0 ≤ draft.durationMinutes)
    (ha : s.activeDecision = some d) :
    (handleStart draft reflection t1 t2).startTime
      ≤ (handleStart draft reflection t1 t2).endTime ∧
    (handleEmergency s t).activeDecision = some { d with endTime := t } ∧
    (t ≤ d.endTime → ({ d with endTime := t } : Decision).endTime ≤ d.endTime) ∧
    (d.startTime ≤ t →
      ({ d with endTime := t } : Decision).startTime
        ≤ ({ d with endTime := t } : Decision).endTime) := by
  refine ⟨?_, ?_, fun h => h, fun h => h⟩
  · show t1 ≤ t2 + draft.durationMinutes * 60 * 1000
    omega
  · unfold handleEmergency
    rw [ha]

/-- Witness for C5: the amended theorem applied to a five-minute draft
committed with both clock readings 10, and an override at time 50 on an
active decision ending at 300010. -/
theorem c5_end_time_witness :
    let draft : Decision := { createDraftDecision "a" 0 with text := "x", durationMinutes := 5 }
    let d : Decision :=
      { draft with status := DecisionStatus.WAITING, startTime := 10, endTime := 300010 }
    let s : AppState :=
      { activeDecision := some d, draftDecision := createDraftDecision "b" 0,
        store := some d }
    (handleStart draft "" 10 10).startTime ≤ (handleStart draft "" 10 10).endTime ∧
    (handleEmergency s 50).activeDecision = some { d with endTime := 50 } ∧
    ((50 : Int) ≤ d.endTime → ({ d with endTime := 50 } : Decision).endTime ≤ d.endTime) ∧
    (d.startTime ≤ 50 →
      ({ d with endTime := 50 } : Decision).startTime
        ≤ ({ d with endTime := 50 } : Decision).endTime) := by
  intro draft d s
  exact c5_end_time draft "" 10 10 s d 50 (by decide) (by decide) rfl

/-- C6: the emergency override at clock reading `t` on an active decision
replaces `endTime` by `t`, leaves `startTime` and every other field of the
decision unchanged, and any subsequent tick at `now >= t` observes the
decision as expired. -/
theorem c6_emergency_override (s : AppState) (d : Decision) (t now : Int)
    (ha : s.activeDecision = some d) (hn : t ≤ now) :
    (handleEmergency s t).activeDecision = some { d with endTime := t } ∧
    ({ d with endTime := t } : Decision).endTime = t ∧
    ({ d with endTime := t } : Decision).startTime = d.startTime ∧
    ({ d with endTime := t } : Decision).id = d.id ∧
    ({ d with endTime := t } : Decision).type = d.type ∧
    ({ d with endTime := t } : Decision).text = d.text ∧
    ({ d with endTime := t } : Decision).reflectionText = d.reflectionText ∧
    ({ d with endTime := t } : Decision).durationMinutes = d.durationMinutes ∧
    ({ d with endTime := t } : Decision).status = d.status ∧
    ({ d with endTime := t } : Decision).createdAt = d.createdAt ∧
    ({ d with endTime := t } : Decision).finalNote = d.finalNote ∧
    tick { d with endTime := t } now = TickResult.expired := by
  refine ⟨?_, rfl, rfl, rfl, rfl, rfl, rfl, rfl, rfl, rfl, rfl, ?_⟩
  · unfold handleEmergency
    rw [ha]
  · simp only [tick]
    rw [if_pos (show ({ d with endTime := t } : Decision).endTime - now ≤ 0 from by
      show t - now ≤ 0
      omega)]

/-- Witness for C6: an override at time 60000 on a decision ending at
300000, observed by a tick one second later. -/
theorem c6_emergency_override_witness :
    let d : Decision :=
      { id := "w", type := DecisionType.OTHER, text := "x", startTime := 0,
        durationMinutes := 5, endTime := 300000, status := DecisionStatus.WAITING,
        createdAt := 0 }
    let s : AppState :=
      { activeDecision := some d, draftDecision := createDraftDecision "f" 0,
        store := some d }
    (handleEmergency s 60000).activeDecision = some { d with endTime := 60000 } ∧
    ({ d with endTime := 60000 } : Decision).endTime = 60000 ∧
    ({ d with endTime := 60000 } : Decision).startTime = d.startTime ∧
    ({ d with endTime := 60000 } : Decision).id = d.id ∧
    ({ d with endTime := 60000 } : Decision).type = d.type ∧
    ({ d with endTime := 60000 } : Decision).text = d.text ∧
    ({ d with endTime := 60000 } : Decision).reflectionText = d.reflectionText ∧
    ({ d with endTime := 60000 } : Decision).durationMinutes = d.durationMinutes ∧
    ({ d with endTime := 60000 } : Decision).status = d.status ∧
    ({ d with endTime := 60000 } : Decision).createdAt = d.createdAt ∧
    ({ d with endTime := 60000 } : Decision).finalNote = d.finalNote ∧
    tick { d with endTime := 60000 } 61000 = TickResult.expired := by
  intro d s
  exact c6_emergency_override s d 60000 61000 rfl (by decide)

/-- C7: on process start with a persisted WAITING decision `d`, the app
loads `d` unchanged as the active decision; the root route then redirects
to the result screen when `now >= endTime` (the decision is treated as
already expired) and to the waiting screen otherwise, where the first tick
still runs against the persisted `endTime` (it is not expired and derives
the remaining time from `d.endTime - now`). -/
theorem c7_reload_recovery (store : Option Decision) (d : Decision)
    (uuid : String) (t0 now : Int)
    (hs : store = some d) (hw : d.status = DecisionStatus.WAITING) :
    (initApp store uuid t0).activeDecision = some d ∧
    (d.endTime ≤ now → rootRoute (initApp store uuid t0).activeDecision now = Route.result) ∧
    (now < d.endTime →
      rootRoute (initApp store uuid t0).activeDecision now = Route.waiting ∧
      tick d now = TickResult.running ((d.endTime - now) / (1000 * 60 * 60))
        (((d.endTime - now) % (1000 * 60 * 60)) / (1000 * 60))
        (((d.endTime - now) % (1000 * 60)) / 1000)
        (100 - ((d.endTime - now : Int) : ℚ) / ((d.endTime - d.startTime : Int) : ℚ) * 100)) := by
  subst hs
  refine ⟨rfl, ?_, ?_⟩
  · intro hle
    show rootRoute (some d) now = Route.result
    simp only [rootRoute]
    rw [if_pos hw, if_pos (show now ≥ d.endTime from by omega)]
  · intro hlt
    constructor
    · show rootRoute (some d) now = Route.waiting
      simp only [rootRoute]
      rw [if_pos hw, if_neg (show ¬now ≥ d.endTime from by omega)]
    · simp only [tick]
      rw [if_neg (by omega)]

/-- Witness for C7: a persisted WAITING decision ending at 300000, started
once at clock 100 (after expiry, route result) and once at clock 299000
(before expiry, route waiting with one minute left). -/
theorem c7_reload_recovery_witness :
    let d : Decision :=
      { id := "w", type := DecisionType.OTHER, text := "x", startTime := 240000,
        durationMinutes := 1, endTime := 300000, status := DecisionStatus.WAITING,
        createdAt := 0 }
    ((initApp (some d) "u" 0).activeDecision = some d ∧
      rootRoute (initApp (some d) "u" 0).activeDecision 300000 = Route.result) ∧
    (rootRoute (initApp (some d) "u" 0).activeDecision 299000 = Route.waiting ∧
      tick d 299000 = TickResult.running ((d.endTime - 299000) / (1000 * 60 * 60))
        (((d.endTime - 299000) % (1000 * 60 * 60)) / (1000 * 60))
        (((d.endTime - 299000) % (1000 * 60)) / 1000)
        (100 - ((d.endTime - 299000 : Int) : ℚ) / ((d.endTime - d.startTime : Int) : ℚ) * 100)) := by
  intro d
  refine ⟨⟨(c7_reload_recovery (some d) d "u" 0 300000 rfl rfl).1, ?_⟩, ?_⟩
  · exact (c7_reload_recovery (some d) d "u" 0 300000 rfl rfl).2.1 (by decide)
  · exact (c7_reload_recovery (some d) d "u" 0 299000 rfl rfl).2.2 (by decide)

/-- C8: loading the store immediately after saving `d` returns exactly `d`;
loading after a clear returns absent; and a save overwrites any prior
record, leaving the single-slot store holding exactly the saved record. -/
theorem c8_store_roundtrip (d : Decision) (st : Option Decision) :
    getDecision (saveDecision d st) = some d ∧
    getDecision (clearDecision st) = none ∧
    saveDecision d st = some d :=
  ⟨rfl, rfl, rfl⟩

/-- C9: a commit attempt with empty text is rejected by `handleNext`
(which returns without any state change, so the draft — whose status the
input screen never touches — stays as created, in DRAFT); durations 0 and
10081 make `CustomDurationPicker` display a validation error message and
block `onSelect`.  None of these rejection paths reaches `startWaiting`,
the only operation that persists a record, so nothing is saved. -/
theorem c9_commit_validation (draft : Decision) (text : String)
    (uuid : String) (now : Int) (hempty : text.trim = "") :
    handleNext draft text = none ∧
    durationError 0 = some "Durasi minimal 1 menit." ∧
    handleConfirm 0 = none ∧
    durationError 10081 = some "Maksimal durasi adalah 1 minggu (7 hari)." ∧
    handleConfirm 10081 = none ∧
    (createDraftDecision uuid now).status = DecisionStatus.DRAFT := by
  refine ⟨?_, by decide, by decide, by decide, by decide, rfl⟩
  simp [handleNext, hempty]

/-- Witness for C9: the theorem applied to the empty text. -/
theorem c9_commit_validation_witness :
    handleNext (createDraftDecision "u" 0) "" = none ∧
    durationError 0 = some "Durasi minimal 1 menit." ∧
    handleConfirm 0 = none ∧
    durationError 10081 = some "Maksimal durasi adalah 1 minggu (7 hari)." ∧
    handleConfirm 10081 = none ∧
    (createDraftDecision "u" 0).status = DecisionStatus.DRAFT :=
  c9_commit_validation (createDraftDecision "u" 0) "" "u" 0 trim_empty

/-- C10: with no active decision, the emergency override returns the app
state unchanged — the in-memory state and the persistent store are both
left exactly as they were. -/
theorem c10_emergency_noop (s : AppState) (now : Int)
    (h : s.activeDecision = none) :
    handleEmergency s now = s := by
  unfold handleEmergency
  rw [h]

/-- Witness for C10: the no-op theorem applied to a freshly initialised
app state with an empty store. -/
theorem c10_emergency_noop_witness :
    handleEmergency (initApp none "u" 0) 12345 = initApp none "u" 0 :=
  c10_emergency_noop (initApp none "u" 0) 12345 rfl

end SecondThought
